import Mathlib

/-!
# Pain or Gains — token-metadata resolution cascade and wallet analysis aggregation

A shallow embedding of the core of the memecoin wallet-analysis application:
the frontend address validators (from `frontend/src/App.js`), the token-name
resolution cascade (described in `token_resolution_results.md`), and the
wallet analysis aggregator.  The backend resolver and aggregator source is not
part of the repository snapshot, so those pieces are modelled from the spec's
contracts; the address validators and the frontend result check are translated
directly from `App.js`.

Numeric trade values are modelled as exact rationals (`Rat`); network
interactions of the cascade's steps 1-2 are modelled as an explicit oracle
parameter, so every outcome of the network steps is a concrete oracle value.
-/

namespace PainOrGains

/-- Translated from `App.js` `validateSolanaAddress`:
`return address.length === 43 || address.length === 44;`
(string length modelled as character count, which agrees with JS UTF-16
length on the ASCII addresses involved). -/
def validateSolanaAddress (address : String) : Bool :=
  address.length == 43 || address.length == 44

/-- Translated from `App.js` `validateBaseAddress`:
`return address.startsWith('0x') && address.length === 42;`
(`startsWith` modelled as character-list prefix). -/
def validateBaseAddress (address : String) : Bool :=
  "0x".data.isPrefixOf address.data && address.length == 42

/-- The two chains offered by the application's blockchain selector. -/
inductive Chain
  | solana
  | base
deriving DecidableEq

/-- Translated from `App.js` `Search.handleSubmit`: the chain selector picks
which validator runs before the network request is issued. -/
def validateAddress (chain : Chain) (address : String) : Bool :=
  match chain with
  | .solana => validateSolanaAddress address
  | .base => validateBaseAddress address

/-- Which cascade step produced a resolution result
(`on_chain_metadata | basic_mint_info | derived_from_address`). -/
inductive ResolutionSource
  | on_chain_metadata
  | basic_mint_info
  | derived_from_address
deriving DecidableEq

/-- The resolver's value object: identifier, display name, symbol, producing
cascade step, and the optional decimals recovered by the basic mint-info
step. -/
structure TokenMetadata where
  identifier : String
  name : String
  symbol : String
  source : ResolutionSource
  decimals : Option Nat
deriving DecidableEq

/-- Modelled from the spec: the network back-ends of cascade steps 1-2, which
are not in the repository snapshot.  `step1` is the on-chain metadata lookup
(`none` covers transport errors, rate limits and malformed responses alike);
`step2` is the basic mint/contract info probe, returning the decimals of a
valid token and nothing for an invalid identifier. -/
structure Oracle where
  step1 : String → Option (String × String)
  step2 : String → Option Nat

/-- Modelled from the spec: success condition of cascade step 1 — both the
queried name and symbol are non-empty strings. -/
def step1Ok : Option (String × String) → Bool
  | some (n, s) => !n.isEmpty && !s.isEmpty
  | none => false

/-- Modelled from the spec: the terminal fallback's derived display name, the
10-character identifier prefix followed by `"..."` (clamped to the
identifier's actual length), as in the documented example
`5HyZiyaSsQt8VZBAJcULZhtykiVmkAkWLiQJCER9pump ↦ "5HyZiyaSsQ..."`. -/
def deriveName (ident : String) : String :=
  String.mk (ident.data.take 10) ++ "..."

/-- Modelled from the spec: the terminal fallback's derived symbol, the
6-character identifier prefix (clamped), as in the documented example
`5HyZiyaSsQt8VZBAJcULZhtykiVmkAkWLiQJCER9pump ↦ "5HyZiy"`. -/
def deriveSymbol (ident : String) : String :=
  String.mk (ident.data.take 6)

/-- Modelled from the spec: `resolve(identifier, ...)`, the strict ordered
cascade of `token_resolution_results.md` — first the on-chain metadata
lookup (kept exactly when both name and symbol are non-empty), then the basic
mint info (which supplies decimals but never a name/symbol and never
terminates the cascade), and finally the derived name/symbol fallback. -/
def resolve (o : Oracle) (ident : String) : TokenMetadata :=
  match o.step1 ident with
  | some (n, s) =>
    if !n.isEmpty && !s.isEmpty then
      { identifier := ident, name := n, symbol := s,
        source := .on_chain_metadata, decimals := none }
    else
      { identifier := ident, name := deriveName ident,
        symbol := deriveSymbol ident,
        source := .derived_from_address, decimals := o.step2 ident }
  | none =>
    { identifier := ident, name := deriveName ident,
      symbol := deriveSymbol ident,
      source := .derived_from_address, decimals := o.step2 ident }

/-- An oracle on which both network steps fail for every identifier. -/
def failOracle : Oracle :=
  { step1 := fun _ => none, step2 := fun _ => none }

/-- One completed buy-to-sell cycle from the wallet's trade history. -/
structure TradeRecord where
  token : String
  entry_value : Rat
  exit_value : Rat
  realized_profit : Rat
  multiplier : Rat
deriving DecidableEq

/-- The aggregate over one wallet's trade records, as served by
`POST /api/analyze` (the echoed `wallet_address`/`blockchain` fields are
omitted as presentation-only). -/
structure WalletAnalysisResult where
  best_trade_profit : Rat
  best_trade_token : String
  best_multiplier : Rat
  best_multiplier_token : String
  worst_trade_loss : Rat
  worst_trade_token : String
  all_time_pnl : Rat
deriving DecidableEq

/-- Running state of the aggregation fold: the current best trade, best
multiplier trade, worst trade and profit-and-loss total. -/
structure AggAcc where
  best : TradeRecord
  bestMult : TradeRecord
  worst : TradeRecord
  pnl : Rat

/-- One aggregation step: fold the next trade into the running extrema and
the running profit-and-loss sum. -/
def stepAcc (acc : AggAcc) (t : TradeRecord) : AggAcc :=
  { best := if acc.best.realized_profit < t.realized_profit then t else acc.best
    bestMult := if acc.bestMult.multiplier < t.multiplier then t else acc.bestMult
    worst := if t.realized_profit < acc.worst.realized_profit then t else acc.worst
    pnl := acc.pnl + t.realized_profit }

/-- Modelled from the spec: the aggregation algorithm of `analyze` — an empty
trade history yields the all-zero/all-empty result, a non-empty one is folded
for the maxima, minimum and sum, and each reported token is the resolved
display name of the trade that produced the statistic. -/
def aggregate (resolveTok : String → TokenMetadata) :
    List TradeRecord → WalletAnalysisResult
  | [] =>
    { best_trade_profit := 0, best_trade_token := ""
      best_multiplier := 0, best_multiplier_token := ""
      worst_trade_loss := 0, worst_trade_token := ""
      all_time_pnl := 0 }
  | t :: ts =>
    let a := ts.foldl stepAcc
      { best := t, bestMult := t, worst := t, pnl := t.realized_profit }
    { best_trade_profit := a.best.realized_profit
      best_trade_token := (resolveTok a.best.token).name
      best_multiplier := a.bestMult.multiplier
      best_multiplier_token := (resolveTok a.bestMult.token).name
      worst_trade_loss := a.worst.realized_profit
      worst_trade_token := (resolveTok a.worst.token).name
      all_time_pnl := a.pnl }

/-- The aggregator's error taxonomy surfaced to the caller. -/
inductive AnalyzeError
  | InvalidAddressFormat
  | UpstreamUnavailable
deriving DecidableEq

/-- Modelled from the spec: `analyze(wallet, chain)` — the chain's address
format is checked before the trade history (an external collaborator, passed
here as an `Except` to cover upstream unavailability) is consulted; an
invalid address fails with `InvalidAddressFormat`, an unreachable upstream
with `UpstreamUnavailable`, and otherwise the history is aggregated. -/
def analyze (resolveTok : String → TokenMetadata)
    (history : Except Unit (List TradeRecord))
    (wallet : String) (chain : Chain) :
    Except AnalyzeError WalletAnalysisResult :=
  if validateAddress chain wallet then
    match history with
    | .error _ => .error .UpstreamUnavailable
    | .ok trades => .ok (aggregate resolveTok trades)
  else
    .error .InvalidAddressFormat

/-- Translated from `App.js` `Search.handleSubmit`: the frontend decides
"real data" versus "no memecoin transactions found" by whether any of the
three token fields is a non-empty (truthy) string. -/
def hasRealData (r : WalletAnalysisResult) : Bool :=
  !r.best_trade_token.isEmpty || !r.best_multiplier_token.isEmpty ||
    !r.worst_trade_token.isEmpty

/-- Modelled from the spec: the per-analysis-call memoized resolver, which is
not in the repository snapshot.  It walks the identifiers of a request in
order with a cache keyed by identifier, consults the cascade only on a cache
miss, and additionally returns the list of identifiers for which a cascade
lookup was actually issued (the lookup log), so that duplicate-lookup claims
are about a recorded trace rather than a side effect. -/
def resolveAllMemo (o : Oracle) :
    List String → List (String × TokenMetadata) →
      List TokenMetadata × List (String × TokenMetadata) × List String
  | [], cache => ([], cache, [])
  | ident :: rest, cache =>
    match cache.lookup ident with
    | some m =>
      let r := resolveAllMemo o rest cache
      (m :: r.1, r.2.1, r.2.2)
    | none =>
      let m := resolve o ident
      let r := resolveAllMemo o rest ((ident, m) :: cache)
      (m :: r.1, r.2.1, ident :: r.2.2)

/-- An oracle on which the on-chain metadata lookup always succeeds with a
fixed non-empty name/symbol pair and the mint-info probe reports 6 decimals
(the values named for this token in `token_resolution_results.md`). -/
def sampleOracle : Oracle :=
  { step1 := fun _ => some ("THE PENGU KILLER", "ORCA"), step2 := fun _ => some 6 }

/-- The token identifier documented in `token_resolution_results.md`. -/
def penguId : String := "5HyZiyaSsQt8VZBAJcULZhtykiVmkAkWLiQJCER9pump"

/-- A 43-character wallet address, valid for the Solana length check. -/
def sampleWallet : String := String.mk (List.replicate 43 'A')

/-- A small concrete trade history used to instantiate the aggregation
theorems. -/
def sampleTrades : List TradeRecord :=
  [{ token := "tokA", entry_value := 1, exit_value := 3,
     realized_profit := 2, multiplier := 3 },
   { token := "tokB", entry_value := 2, exit_value := 1,
     realized_profit := -1, multiplier := 1/2 }]

/-! ## Helper lemmas -/

/-- A string whose `isEmpty` flag is `false` is not the empty string. -/
theorem ne_empty_of_isEmpty_eq_false {s : String} (h : s.isEmpty = false) :
    s ≠ "" := by
  intro heq
  subst heq
  exact absurd h (by decide)

/-- A non-empty string has `isEmpty = false`. -/
theorem isEmpty_eq_false_of_ne_empty {s : String} (h : s ≠ "") :
    s.isEmpty = false :=
  Bool.eq_false_iff.mpr (fun hT => h ((String.isEmpty_iff s).mp hT))

/-- When step 1 reports a name and symbol that are both non-empty, the cascade
stops there and returns them verbatim. -/
theorem resolve_of_step1_success (o : Oracle) (ident n s : String)
    (hs : o.step1 ident = some (n, s)) (hn : n ≠ "") (hsy : s ≠ "") :
    resolve o ident =
      { identifier := ident, name := n, symbol := s,
        source := .on_chain_metadata, decimals := none } := by
  have hn' := isEmpty_eq_false_of_ne_empty hn
  have hs' := isEmpty_eq_false_of_ne_empty hsy
  simp [resolve, hs, hn', hs']

/-- When step 1 fails (no response, or a response with an empty component),
the cascade falls through to the derived name and symbol, picking up the
decimals of the basic mint-info probe. -/
theorem resolve_of_step1_fail (o : Oracle) (ident : String)
    (h : step1Ok (o.step1 ident) = false) :
    resolve o ident =
      { identifier := ident, name := deriveName ident,
        symbol := deriveSymbol ident,
        source := .derived_from_address, decimals := o.step2 ident } := by
  cases hs : o.step1 ident with
  | none => simp [resolve, hs]
  | some p =>
    obtain ⟨n, s⟩ := p
    rw [hs] at h
    simp only [step1Ok] at h
    simp [resolve, hs, h]

/-- The derived display name always carries the `"..."` suffix, so it is
never empty. -/
theorem deriveName_ne_empty (ident : String) : deriveName ident ≠ "" := by
  intro h
  have h2 : ident.data.take 10 ++ ['.', '.', '.'] = ([] : List Char) :=
    congrArg String.data h
  exact absurd h2 (by simp)

/-- The derived symbol of a non-empty identifier is non-empty. -/
theorem deriveSymbol_ne_empty (ident : String) (h : ident ≠ "") :
    deriveSymbol ident ≠ "" := by
  intro hc
  have h2 : ident.data.take 6 = ([] : List Char) := congrArg String.data hc
  rcases List.take_eq_nil_iff.mp h2 with h6 | hd
  · exact absurd h6 (by decide)
  · exact h (by cases ident; simp_all)

/-- The profit-and-loss component of the aggregation fold accumulates exactly
the sum of the realized profits it consumes. -/
theorem foldl_stepAcc_pnl (ts : List TradeRecord) : ∀ acc : AggAcc,
    (ts.foldl stepAcc acc).pnl =
      acc.pnl + (ts.map TradeRecord.realized_profit).sum := by
  induction ts with
  | nil => intro acc; simp
  | cons t ts ih =>
    intro acc
    rw [List.foldl_cons, ih]
    simp [stepAcc]
    ring

/-- In a cache whose every entry records the cascade's own answer for its
key, a hit returns exactly what the cascade would return. -/
theorem lookup_resolved (o : Oracle) :
    ∀ (cache : List (String × TokenMetadata)),
      (∀ p ∈ cache, p.2 = resolve o p.1) →
      ∀ (ident : String) (m : TokenMetadata),
        cache.lookup ident = some m → m = resolve o ident := by
  intro cache
  induction cache with
  | nil =>
    intro _ ident m h
    simp [List.lookup] at h
  | cons p t ih =>
    intro hinv ident m h
    obtain ⟨k, v⟩ := p
    cases hik : (ident == k) with
    | true =>
      simp [List.lookup, hik] at h
      rw [← h, beq_iff_eq.mp hik]
      exact hinv (k, v) (List.mem_cons_self (k, v) t)
    | false =>
      simp [List.lookup, hik] at h
      exact ih (fun q hq => hinv q (List.mem_cons_of_mem _ hq)) ident m h

/-- Starting from a cache that agrees with the cascade, the memoized resolver
returns exactly the metadata the unmemoized cascade returns for each
requested identifier, in order. -/
theorem resolveAllMemo_fst (o : Oracle) :
    ∀ (ids : List String) (cache : List (String × TokenMetadata)),
      (∀ p ∈ cache, p.2 = resolve o p.1) →
      (resolveAllMemo o ids cache).1 = ids.map (resolve o) := by
  intro ids
  induction ids with
  | nil => intro cache _; rfl
  | cons ident rest ih =>
    intro cache hinv
    unfold resolveAllMemo
    cases hl : cache.lookup ident with
    | some m =>
      simp only [hl]
      rw [List.map_cons, ih cache hinv,
        lookup_resolved o cache hinv ident m hl]
    | none =>
      simp only [hl]
      have hinv2 : ∀ p ∈ (ident, resolve o ident) :: cache,
          p.2 = resolve o p.1 := by
        intro p hp
        rcases List.mem_cons.mp hp with h1 | h2
        · rw [h1]
        · exact hinv p h2
      rw [List.map_cons, ih _ hinv2]

/-- The memoized resolver's lookup log never repeats an identifier, and only
identifiers absent from the starting cache are ever looked up. -/
theorem resolveAllMemo_log (o : Oracle) :
    ∀ (ids : List String) (cache : List (String × TokenMetadata)),
      (resolveAllMemo o ids cache).2.2.Nodup ∧
      ∀ i ∈ (resolveAllMemo o ids cache).2.2, cache.lookup i = none := by
  intro ids
  induction ids with
  | nil =>
    intro cache
    exact ⟨List.nodup_nil, by intro i hi; simp [resolveAllMemo] at hi⟩
  | cons ident rest ih =>
    intro cache
    unfold resolveAllMemo
    cases hl : cache.lookup ident with
    | some m =>
      simp only [hl]
      exact ih cache
    | none =>
      simp only [hl]
      obtain ⟨hnd, hmem⟩ := ih ((ident, resolve o ident) :: cache)
      constructor
      · refine List.nodup_cons.mpr ⟨?_, hnd⟩
        intro hin
        have h2 := hmem ident hin
        simp [List.lookup] at h2
      · intro i hi
        rcases List.mem_cons.mp hi with h1 | h2
        · rw [h1]; exact hl
        · have h3 := hmem i h2
          cases hik : (i == ident) with
          | true =>
            rw [show ((ident, resolve o ident) :: cache).lookup i =
                some (resolve o ident) by simp [List.lookup, hik]] at h3
            exact Option.noConfusion h3
          | false =>
            rw [show ((ident, resolve o ident) :: cache).lookup i =
                cache.lookup i by simp [List.lookup, hik]] at h3
            exact h3

/-! ## Claim theorems -/

/-- C1 (counterexample): the totality claim fails at the empty identifier —
with both network steps failing, the cascade's terminal fallback clamps the
6-character symbol prefix to the identifier's actual length, so the returned
symbol is the empty string even though the claim promises a non-empty symbol
for every identifier. -/
theorem resolve_empty_identifier_gives_empty_symbol :
    (resolve failOracle "").symbol = "" ∧
    (resolve failOracle "").source = ResolutionSource.derived_from_address := by
  exact ⟨rfl, rfl⟩

/-- C1 (amended): the resolver cascade is total — for every oracle outcome
and every identifier it returns without error (it is a total function), the
returned name is non-empty, and the returned symbol is non-empty whenever
the identifier itself is non-empty. -/
theorem resolve_cascade_total_nonempty :
    ∀ (o : Oracle) (ident : String),
      (resolve o ident).name ≠ "" ∧
      (ident ≠ "" → (resolve o ident).symbol ≠ "") := by
  intro o ident
  cases hs : o.step1 ident with
  | some p =>
    obtain ⟨n, s⟩ := p
    cases hok : (!n.isEmpty && !s.isEmpty) with
    | true =>
      have hns : n.isEmpty = false ∧ s.isEmpty = false := by
        simpa [Bool.and_eq_true, Bool.not_eq_true'] using hok
      rw [resolve_of_step1_success o ident n s hs
        (ne_empty_of_isEmpty_eq_false hns.1) (ne_empty_of_isEmpty_eq_false hns.2)]
      exact ⟨ne_empty_of_isEmpty_eq_false hns.1,
        fun _ => ne_empty_of_isEmpty_eq_false hns.2⟩
    | false =>
      have hf : step1Ok (o.step1 ident) = false := by
        rw [hs]; simpa [step1Ok] using hok
      rw [resolve_of_step1_fail o ident hf]
      exact ⟨deriveName_ne_empty ident, fun hne => deriveSymbol_ne_empty ident hne⟩
  | none =>
    have hf : step1Ok (o.step1 ident) = false := by rw [hs]; rfl
    rw [resolve_of_step1_fail o ident hf]
    exact ⟨deriveName_ne_empty ident, fun hne => deriveSymbol_ne_empty ident hne⟩

/-- C1 (witness): at the documented token identifier, with every network step
failing, the resolver returns a non-empty name and a non-empty symbol. -/
theorem resolve_cascade_total_nonempty_witness :
    (resolve failOracle penguId).name ≠ "" ∧
    (resolve failOracle penguId).symbol ≠ "" :=
  ⟨(resolve_cascade_total_nonempty failOracle penguId).1,
   (resolve_cascade_total_nonempty failOracle penguId).2 (by decide)⟩

/-- C3: whenever step 1 fails or yields nothing usable, the resolver returns
`derived_from_address` metadata whose name and symbol are the deterministic
derived prefixes of the identifier alone — independent of the oracle (no
network dependency) — and on the documented identifier the derivation yields
name `"5HyZiyaSsQ..."` and symbol `"5HyZiy"`. -/
theorem resolve_fallback_derived_pure :
    ∀ (o : Oracle) (ident : String),
      step1Ok (o.step1 ident) = false →
      (resolve o ident).source = ResolutionSource.derived_from_address ∧
      (resolve o ident).name = deriveName ident ∧
      (resolve o ident).symbol = deriveSymbol ident ∧
      (∀ o' : Oracle, step1Ok (o'.step1 ident) = false →
        (resolve o' ident).name = (resolve o ident).name ∧
        (resolve o' ident).symbol = (resolve o ident).symbol) ∧
      deriveName penguId = "5HyZiyaSsQ..." ∧
      deriveSymbol penguId = "5HyZiy" := by
  intro o ident h
  rw [resolve_of_step1_fail o ident h]
  refine ⟨rfl, rfl, rfl, ?_, by decide, by decide⟩
  intro o' h'
  rw [resolve_of_step1_fail o' ident h']
  exact ⟨rfl, rfl⟩

/-- C3 (witness): resolving the documented identifier against an oracle whose
network steps all fail produces the documented derived name and symbol with
source `derived_from_address`. -/
theorem resolve_fallback_derived_pure_witness :
    (resolve failOracle penguId).source = ResolutionSource.derived_from_address ∧
    (resolve failOracle penguId).name = "5HyZiyaSsQ..." ∧
    (resolve failOracle penguId).symbol = "5HyZiy" := by
  obtain ⟨h1, h2, h3, _, h5, h6⟩ :=
    resolve_fallback_derived_pure failOracle penguId (by decide)
  exact ⟨h1, h2.trans h5, h3.trans h6⟩

/-- C4: whenever step 1 returns a name and symbol that are both non-empty,
the resolver reports source `on_chain_metadata` and returns exactly the
queried values, with no further fallback applied. -/
theorem resolve_step1_success_exact :
    ∀ (o : Oracle) (ident n s : String),
      o.step1 ident = some (n, s) → n ≠ "" → s ≠ "" →
      (resolve o ident).source = ResolutionSource.on_chain_metadata ∧
      (resolve o ident).name = n ∧ (resolve o ident).symbol = s := by
  intro o ident n s hs hn hsy
  rw [resolve_of_step1_success o ident n s hs hn hsy]
  exact ⟨rfl, rfl, rfl⟩

/-- C4 (witness): an oracle that answers the metadata lookup with the known
pair `("THE PENGU KILLER", "ORCA")` makes the resolver return exactly that
pair with source `on_chain_metadata`. -/
theorem resolve_step1_success_exact_witness :
    (resolve sampleOracle penguId).source = ResolutionSource.on_chain_metadata ∧
    (resolve sampleOracle penguId).name = "THE PENGU KILLER" ∧
    (resolve sampleOracle penguId).symbol = "ORCA" :=
  resolve_step1_success_exact sampleOracle penguId "THE PENGU KILLER" "ORCA"
    rfl (by decide) (by decide)

/-- C8: the `source` field of a resolution result is never `basic_mint_info`
— the mint-info step supplies no name/symbol and never terminates the
cascade, so every result carries `on_chain_metadata` or
`derived_from_address`. -/
theorem resolve_source_never_basic_mint_info :
    ∀ (o : Oracle) (ident : String),
      (resolve o ident).source ≠ ResolutionSource.basic_mint_info ∧
      ((resolve o ident).source = ResolutionSource.on_chain_metadata ∨
        (resolve o ident).source = ResolutionSource.derived_from_address) := by
  intro o ident
  unfold resolve
  cases o.step1 ident with
  | none => exact ⟨by simp, Or.inr rfl⟩
  | some p =>
    obtain ⟨n, s⟩ := p
    by_cases hc : (!n.isEmpty && !s.isEmpty) = true
    · simp [hc]
    · simp [hc]

/-- C2: `analyze` fails with `InvalidAddressFormat` exactly when the wallet
address fails the selected chain's format check, regardless of the trade
history source (so the check precedes any network interaction); the Solana
check passes exactly the strings of length 43 or 44, the Base check passes
exactly the strings starting with `0x` of total length 42, and in particular
a length-30 Solana address and the Base address `"0xabc"` fail. -/
theorem analyze_invalid_address_iff_format_check :
    ∀ (r : String → TokenMetadata) (h : Except Unit (List TradeRecord))
      (w : String) (c : Chain),
      (analyze r h w c = Except.error AnalyzeError.InvalidAddressFormat ↔
        validateAddress c w = false) ∧
      (validateSolanaAddress w = true ↔ (w.length = 43 ∨ w.length = 44)) ∧
      (validateBaseAddress w = true ↔
        ("0x".data.isPrefixOf w.data = true ∧ w.length = 42)) ∧
      validateSolanaAddress (String.mk (List.replicate 30 'a')) = false ∧
      validateBaseAddress "0xabc" = false := by
  intro r h w c
  refine ⟨?_, ?_, ?_, by decide, by decide⟩
  · by_cases hv : validateAddress c w
    · cases h <;> simp [analyze, hv]
    · simp [analyze, hv]
  · simp [validateSolanaAddress]
  · simp [validateBaseAddress]

/-- C5: with a valid wallet address and an empty trade history, `analyze`
returns (rather than raising) a result with all four numeric fields at zero
and all token fields empty, which the frontend's real-data check classifies
as "no activity" — distinguishable from an error by the `ok` constructor. -/
theorem analyze_empty_trades_zero_result :
    ∀ (r : String → TokenMetadata) (w : String) (c : Chain),
      validateAddress c w = true →
      ∃ out, analyze r (Except.ok []) w c = Except.ok out ∧
        out.best_trade_profit = 0 ∧ out.best_multiplier = 0 ∧
        out.worst_trade_loss = 0 ∧ out.all_time_pnl = 0 ∧
        out.best_trade_token = "" ∧ out.best_multiplier_token = "" ∧
        out.worst_trade_token = "" ∧ hasRealData out = false := by
  intro r w c hv
  refine ⟨aggregate r [], ?_, rfl, rfl, rfl, rfl, rfl, rfl, rfl, rfl⟩
  simp [analyze, hv]

/-- C5 (witness): a concrete valid Solana wallet with an empty history gets
the zero/empty result. -/
theorem analyze_empty_trades_zero_result_witness :
    ∃ out, analyze (resolve failOracle) (Except.ok []) sampleWallet
        Chain.solana = Except.ok out ∧
      out.best_trade_profit = 0 ∧ out.best_multiplier = 0 ∧
      out.worst_trade_loss = 0 ∧ out.all_time_pnl = 0 ∧
      out.best_trade_token = "" ∧ out.best_multiplier_token = "" ∧
      out.worst_trade_token = "" ∧ hasRealData out = false :=
  analyze_empty_trades_zero_result (resolve failOracle) sampleWallet
    Chain.solana (by decide)

/-- C6: for a valid address and a non-empty trade history, the
`all_time_pnl` field of the `analyze` result is the exact (rational
arithmetic, hence drift-free) sum of the `realized_profit` values of all
trades. -/
theorem analyze_all_time_pnl_exact_sum :
    ∀ (r : String → TokenMetadata) (w : String) (c : Chain)
      (trades : List TradeRecord) (out : WalletAnalysisResult),
      validateAddress c w = true → trades ≠ [] →
      analyze r (Except.ok trades) w c = Except.ok out →
      out.all_time_pnl = (trades.map TradeRecord.realized_profit).sum := by
  intro r w c trades out hv hne hok
  have hagg : out = aggregate r trades := by
    simp [analyze, hv] at hok
    exact hok.symm
  subst hagg
  cases trades with
  | nil => exact absurd rfl hne
  | cons t ts =>
    have hdef : (aggregate r (t :: ts)).all_time_pnl =
        (ts.foldl stepAcc
          { best := t, bestMult := t, worst := t,
            pnl := t.realized_profit }).pnl := rfl
    rw [hdef, foldl_stepAcc_pnl]
    simp

/-- C6 (witness): on a concrete two-trade history the reported
profit-and-loss equals the sum of the two realized profits. -/
theorem analyze_all_time_pnl_exact_sum_witness :
    (aggregate (resolve failOracle) sampleTrades).all_time_pnl =
      (sampleTrades.map TradeRecord.realized_profit).sum :=
  analyze_all_time_pnl_exact_sum (resolve failOracle) sampleWallet
    Chain.solana sampleTrades (aggregate (resolve failOracle) sampleTrades)
    (by decide) (by decide) rfl

/-- C7: within one analysis call, the memoized resolver returns exactly the
metadata the plain cascade returns for every requested identifier (so a
repeated identifier yields the same metadata as its first resolution), and
its lookup log never contains the same identifier twice — at most one
cascade lookup per distinct identifier. -/
theorem resolveAllMemo_eq_map_resolve_and_log_nodup :
    ∀ (o : Oracle) (ids : List String),
      (resolveAllMemo o ids []).1 = ids.map (resolve o) ∧
      (resolveAllMemo o ids []).2.2.Nodup :=
  fun o ids =>
    ⟨resolveAllMemo_fst o ids [] (by intro p hp; simp at hp),
     (resolveAllMemo_log o ids []).1⟩

/-- C9: the address validators inspect only length and prefix, never
character content — every string of length 43 or 44 passes the Solana check
and every 42-character string beginning with `0x` passes the Base check,
including strings of blanks, of the non-base58 characters `0`/`l`, and of
non-hexadecimal `z` characters. -/
theorem validators_ignore_character_content :
    (∀ s : String, s.length = 43 ∨ s.length = 44 →
      validateSolanaAddress s = true) ∧
    (∀ s : String, "0x".data.isPrefixOf s.data = true → s.length = 42 →
      validateBaseAddress s = true) ∧
    validateSolanaAddress (String.mk (List.replicate 43 ' ')) = true ∧
    validateSolanaAddress (String.mk (List.replicate 44 '0')) = true ∧
    validateBaseAddress ("0x" ++ String.mk (List.replicate 40 'z')) = true := by
  refine ⟨?_, ?_, by decide, by decide, by decide⟩
  · intro s hs
    simpa [validateSolanaAddress] using hs
  · intro s h1 h2
    simp [validateBaseAddress, h1, h2]

/-- C9 (witness): a 44-character string of `!` and a `0x`-headed 42-character
string of `#` both pass their validators. -/
theorem validators_ignore_character_content_witness :
    validateSolanaAddress (String.mk (List.replicate 44 '!')) = true ∧
    validateBaseAddress (String.mk ('0' :: 'x' :: List.replicate 40 '#')) = true :=
  ⟨validators_ignore_character_content.1 _ (by decide),
   validators_ignore_character_content.2.1 _ (by decide) (by decide)⟩

/-- C10: for every identifier at least as long as the 10-character name
prefix, the derived symbol (the 6-character prefix) is itself a leading
piece of the derived name (the 10-character prefix followed by `"..."`). -/
theorem derived_symbol_leads_derived_name :
    ∀ s : String, 10 ≤ s.length →
      (deriveSymbol s).data <+: (deriveName s).data := by
  intro s _
  refine ⟨(s.data.take 10).drop 6 ++ "...".data, ?_⟩
  show s.data.take 6 ++ _ = (String.mk (s.data.take 10) ++ "...").data
  rw [String.data_append, ← List.append_assoc]
  have ht : s.data.take 6 = (s.data.take 10).take 6 := by
    rw [List.take_take]
    norm_num
  rw [ht, List.take_append_drop]

/-- C10 (witness): on the documented 44-character identifier the derived
symbol is a leading piece of the derived name. -/
theorem derived_symbol_leads_derived_name_witness :
    (deriveSymbol penguId).data <+: (deriveName penguId).data :=
  derived_symbol_leads_derived_name penguId (by decide)

end PainOrGains
